import Mathlib

/-!
# Shallow embedding of the RYGlfg server (`ryglfg/__main__.py`, `ryglfg/models.py`)

Each FastAPI route handler of `ryglfg/__main__.py` is embedded as a pure Lean
function from (authenticated claims, store contents, request arguments) to a
`HResult`: the HTTP outcome, the record store as seen by the handler's session
at handler exit, and the ordered trace of externally visible events the handler
body performed (`session.commit()` calls and `requests.post` deliveries).

Conventions of the embedding:
* The SQLAlchemy session's unit of work is modelled by a `Store` value threaded
  through the handler.  `session.commit()` is recorded as an `Event.commit` in
  the trace; a handler that mutates ORM objects without calling
  `session.commit()` produces a mutated store but no commit event (whatever the
  session teardown does afterwards happens outside the handler body).
* `requests.post(webhook.url, json=...)` is modelled by an oracle
  `postOk : Nat → Bool` indexed by webhook id: `true` means the POST returned
  (any HTTP status — the code never checks it), `false` means it raised
  (connection error / timeout).  A raised exception propagates out of the
  Python `for` loop, so dispatching stops at the first failing webhook and the
  handler terminates with `Outcome.pyError`, exactly as the unguarded loops in
  the source do.
* Python datetimes are modelled as `Int` timestamps; server-side default
  timestamps are modelled as `0` (no claim depends on clock values).
* SQLAlchemy declarative constructors and the `update` helper raise `TypeError`
  on a keyword that is not a mapped column; keyword-argument passing is
  modelled explicitly through `PValue` association lists so that
  `database.Response(**data.dict(), partecipant_id=user)` with
  `data : AnnouncementEditable` faithfully fails.
* A SQLAlchemy `select` chain is modelled by a `LfgQuery` record whose fields
  are set by the builder calls in source order; executing it applies the
  clauses in canonical SQL order (WHERE, then ORDER BY, then OFFSET/LIMIT),
  which is how SQLAlchemy renders the statement regardless of the order the
  builder methods were invoked in.
-/

set_option autoImplicit false

namespace Ryglfg

/-- Modelled from the spec: `ryglfg/database.py` is not in the sources; the spec
fixes the state set `{LOOKING_FOR_GROUP, EVENT_STARTED, EVENT_CANCELLED}` with
`LOOKING_FOR_GROUP` initial and strictly below both terminal states.  The code
compares members with `>` and tests their truthiness, so the Python type is an
`enum.IntEnum`; following Python's `enum.auto()` convention the member values
are taken as 1, 2, 3, which respects the spec's ordering. -/
inductive AnnouncementState where
  | LOOKING_FOR_GROUP
  | EVENT_STARTED
  | EVENT_CANCELLED
deriving DecidableEq

/-- The `IntEnum` integer value of a state member (spec-modelled, see above). -/
def AnnouncementState.value : AnnouncementState → Nat
  | .LOOKING_FOR_GROUP => 1
  | .EVENT_STARTED => 2
  | .EVENT_CANCELLED => 3

/-- Modelled from the spec: `ryglfg/database.py` is not in the sources; the
spec only says `choice` is "an enumerated participation answer". -/
inductive ResponseChoice where
  | ACCEPTED
  | DECLINED
  | LATER
deriving DecidableEq

/-- Modelled from the spec: the single supported webhook delivery format. -/
inductive WebhookFormat where
  | RYGLFG
deriving DecidableEq

/-- `database.Announcement` row, fields per `models.AnnouncementBasic`. -/
structure Announcement where
  aid : Nat
  title : String
  description : String
  opening_time : Int
  autostart_time : Int
  creator_id : String
  creation_time : Int
  editing_time : Int
  closer_id : Option String
  closure_time : Option Int
  state : AnnouncementState
deriving DecidableEq

/-- `database.Response` row, fields per `models.ResponseBasic`. -/
structure Response where
  aid : Nat
  partecipant_id : String
  choice : ResponseChoice
  posting_time : Int
  editing_time : Int
deriving DecidableEq

/-- `database.Webhook` row, fields per `models.WebhookFull` usage. -/
structure Webhook where
  wid : Nat
  url : String
  format : WebhookFormat
deriving DecidableEq

/-- The record store visible through one session. -/
structure Store where
  announcements : List Announcement
  responses : List Response
  webhooks : List Webhook
deriving DecidableEq

/-- The decoded JWT claims: `cu.sub` and `cu.permissions`. -/
structure Claims where
  sub : String
  permissions : List String
deriving DecidableEq

/-- A Python value passed as a keyword argument. -/
inductive PValue where
  | s (v : String)
  | i (v : Int)
  | c (v : ResponseChoice)
deriving DecidableEq

/-- A JSON payload POSTed to a webhook URL. -/
inductive Payload where
  | ann (ptype : String) (event : Announcement)
  | ans (what : String) (ptype : String) (event : Response)
  | test
deriving DecidableEq

/-- An externally visible action performed by a handler body, in order. -/
inductive Event where
  | commit
  | post (wid : Nat) (payload : Payload)
deriving DecidableEq

/-- Whether an event is a webhook delivery attempt. -/
def Event.isPost : Event → Bool
  | .commit => false
  | .post _ _ => true

/-- The outcome of one request: a 2xx status, a raised `fastapi.HTTPException`
with its status code, or an uncaught Python exception (HTTP 500). -/
inductive Outcome where
  | ok (code : Nat)
  | httpError (code : Nat)
  | pyError (msg : String)
deriving DecidableEq

/-- Result of running one handler: outcome, session-visible store at handler
exit, and the trace of commits and webhook POSTs the handler body performed. -/
structure HResult where
  outcome : Outcome
  store : Store
  trace : List Event
deriving DecidableEq

/-- `models.AnnouncementEditable`: the request body of create/edit. -/
structure AnnouncementEditable where
  title : String
  description : String
  opening_time : Int
  autostart_time : Int
deriving DecidableEq

/-- `data.dict()` for an `AnnouncementEditable` body. -/
def AnnouncementEditable.dict (d : AnnouncementEditable) : List (String × PValue) :=
  [("title", PValue.s d.title), ("description", PValue.s d.description),
   ("opening_time", PValue.i d.opening_time), ("autostart_time", PValue.i d.autostart_time)]

/-- Keyword lookup in a Python kwargs dict. -/
def lookupKw (k : String) (kw : List (String × PValue)) : Option PValue :=
  (kw.find? (fun p => decide (p.1 = k))).map (fun p => p.2)

/-- The mapped column names of `database.Response` (per `models.ResponseBasic`). -/
def Response.columnKeys : List String :=
  ["aid", "partecipant_id", "choice", "posting_time", "editing_time"]

/-- The mapped column names of `database.Announcement` (per `models.AnnouncementBasic`). -/
def Announcement.columnKeys : List String :=
  ["aid", "title", "description", "opening_time", "autostart_time", "creator_id",
   "creation_time", "editing_time", "closer_id", "closure_time", "state"]

/-- `database.Response(**kw)`: the SQLAlchemy declarative constructor raises
`TypeError` (here `none`) when a keyword is not a mapped column; otherwise it
builds the row, with absent audit columns left to their server defaults. -/
def Response.fromKwargs (kw : List (String × PValue)) : Option Response :=
  if kw.all (fun p => decide (p.1 ∈ Response.columnKeys)) then
    match lookupKw "choice" kw, lookupKw "partecipant_id" kw with
    | some (PValue.c ch), some (PValue.s pid) =>
        some { aid := (match lookupKw "aid" kw with | some (PValue.i v) => v.toNat | _ => 0),
               partecipant_id := pid, choice := ch, posting_time := 0, editing_time := 0 }
    | _, _ => none
  else none

/-- Modelled from the spec: `database.py`'s row `update(**kw)` helper is not in
the sources; the spec describes edit as a full replace of the given columns.
An unmapped keyword raises (here `none`), like the constructor. -/
def Response.updateKwargs (r : Response) (kw : List (String × PValue)) : Option Response :=
  if kw.all (fun p => decide (p.1 ∈ Response.columnKeys)) then
    some { r with choice := (match lookupKw "choice" kw with
                             | some (PValue.c ch) => ch
                             | _ => r.choice) }
  else none

/-- Modelled from the spec: `database.py`'s row `update(**kw)` helper is not in
the sources; the spec describes edit as a full replace of the given columns. -/
def Announcement.updateKwargs (a : Announcement) (kw : List (String × PValue)) :
    Option Announcement :=
  if kw.all (fun p => decide (p.1 ∈ Announcement.columnKeys)) then
    some { a with
      title := (match lookupKw "title" kw with | some (PValue.s v) => v | _ => a.title),
      description := (match lookupKw "description" kw with | some (PValue.s v) => v | _ => a.description),
      opening_time := (match lookupKw "opening_time" kw with | some (PValue.i v) => v | _ => a.opening_time),
      autostart_time := (match lookupKw "autostart_time" kw with | some (PValue.i v) => v | _ => a.autostart_time) }
  else none

/-- `session.execute(select(Announcement).where(aid == aid)).scalar()`. -/
def findAnn (s : Store) (aid : Nat) : Option Announcement :=
  s.announcements.find? (fun a => decide (a.aid = aid))

/-- `session.execute(select(Webhook).where(wid == wid)).scalar()`. -/
def findWebhook (s : Store) (wid : Nat) : Option Webhook :=
  s.webhooks.find? (fun w => decide (w.wid = wid))

/-- Write back a mutated ORM `Announcement` object into the session's view. -/
def replaceAnn (s : Store) (a : Announcement) : Store :=
  { s with announcements := s.announcements.map (fun b => if b.aid = a.aid then a else b) }

/-- Write back a mutated ORM `Response` object into the session's view. -/
def replaceResp (s : Store) (r : Response) : Store :=
  { s with responses := s.responses.map (fun q =>
      if q.aid = r.aid ∧ q.partecipant_id = r.partecipant_id then r else q) }

/-- `session.delete(lfg)` on the announcement with the given `aid`. -/
def removeAnn (s : Store) (aid : Nat) : Store :=
  { s with announcements := s.announcements.filter (fun a => decide (a.aid ≠ aid)) }

/-- The store-assigned primary key of a freshly inserted announcement. -/
def nextAid (s : Store) : Nat :=
  s.announcements.foldl (fun m a => max m a.aid) 0 + 1

/-- The `for webhook in ...: requests.post(...)` loop: one delivery attempt per
registered webhook, in order; the first raising POST aborts the loop (`false`
in the second component), exactly as an uncaught exception does in Python. -/
def runDispatch (postOk : Nat → Bool) (ws : List Webhook) (p : Payload) :
    List Event × Bool :=
  match ws with
  | [] => ([], true)
  | w :: rest =>
    if postOk w.wid then
      let r := runDispatch postOk rest p
      (Event.post w.wid p :: r.1, r.2)
    else ([Event.post w.wid p], false)

/-- An error response raised before any mutation or delivery. -/
def errResult (code : Nat) (store : Store) : HResult :=
  { outcome := Outcome.httpError code, store := store, trace := [] }

/-- `POST /lfg` — `lfg_post` (`__main__.py` lines 96-128).  Commits the insert,
then dispatches a `create` notification to every webhook. -/
def lfg_post (postOk : Nat → Bool) (cu : Claims) (store : Store)
    (user? : Option String) (data : AnnouncementEditable) : HResult :=
  if "create:lfg" ∉ cu.permissions then errResult 403 store else
  let user := user?.getD cu.sub
  if "create:lfg_sudo" ∉ cu.permissions ∧ user ≠ cu.sub then errResult 403 store else
  let lfg : Announcement :=
    { aid := nextAid store, title := data.title, description := data.description,
      opening_time := data.opening_time, autostart_time := data.autostart_time,
      creator_id := user, creation_time := 0, editing_time := 0,
      closer_id := none, closure_time := none,
      state := AnnouncementState.LOOKING_FOR_GROUP }
  let store2 := { store with announcements := store.announcements ++ [lfg] }
  let d := runDispatch postOk store2.webhooks (Payload.ann "create" lfg)
  { outcome := if d.2 then Outcome.ok 200 else Outcome.pyError "RequestException",
    store := store2, trace := Event.commit :: d.1 }

/-- `PUT /lfg/{aid}` — `lfg_put` (`__main__.py` lines 166-198). -/
def lfg_put (cu : Claims) (store : Store) (aid : Nat)
    (data : AnnouncementEditable) : HResult :=
  if "edit:lfg" ∉ cu.permissions then errResult 403 store else
  match findAnn store aid with
  | none => errResult 404 store
  | some lfg =>
    if lfg.creator_id ≠ cu.sub ∧ "edit:lfg_sudo" ∉ cu.permissions then errResult 403 store else
    if lfg.state.value > AnnouncementState.LOOKING_FOR_GROUP.value
        ∧ "edit:lfg_admin" ∉ cu.permissions then errResult 403 store else
    match lfg.updateKwargs data.dict with
    | none => { outcome := Outcome.pyError "TypeError", store := store, trace := [] }
    | some lfg2 =>
      { outcome := Outcome.ok 200, store := replaceAnn store lfg2, trace := [Event.commit] }

/-- `DELETE /lfg/{aid}` — `lfg_delete` (`__main__.py` lines 207-231).  Absent
rows are a success; nothing is ever dispatched. -/
def lfg_delete (cu : Claims) (store : Store) (aid : Nat) : HResult :=
  if "delete:lfg_admin" ∉ cu.permissions then errResult 403 store else
  match findAnn store aid with
  | none => { outcome := Outcome.ok 204, store := store, trace := [] }
  | some _ =>
    { outcome := Outcome.ok 204, store := removeAnn store aid, trace := [Event.commit] }

/-- `PATCH /lfg/{aid}/start` — `lfg_start` (`__main__.py` lines 240-285).
Note: the handler body contains no `session.commit()`; the state mutation is
only visible in the session when the dispatch loop runs. -/
def lfg_start (postOk : Nat → Bool) (cu : Claims) (store : Store) (aid : Nat)
    (user? : Option String) : HResult :=
  if "start:lfg" ∉ cu.permissions then errResult 403 store else
  let user := user?.getD cu.sub
  if "start:lfg_sudo" ∉ cu.permissions ∧ user ≠ cu.sub then errResult 403 store else
  match findAnn store aid with
  | none => errResult 404 store
  | some lfg =>
    if "start:lfg_admin" ∉ cu.permissions ∧ user ≠ lfg.creator_id then errResult 403 store else
    if lfg.state ≠ AnnouncementState.LOOKING_FOR_GROUP then errResult 409 store else
    let lfg2 := { lfg with state := AnnouncementState.EVENT_STARTED }
    let store2 := replaceAnn store lfg2
    let d := runDispatch postOk store2.webhooks (Payload.ann "start" lfg2)
    { outcome := if d.2 then Outcome.ok 200 else Outcome.pyError "RequestException",
      store := store2, trace := d.1 }

/-- `PATCH /lfg/{aid}/cancel` — `lfg_cancel` (`__main__.py` lines 294-339).
Like `lfg_start`, the handler body contains no `session.commit()`. -/
def lfg_cancel (postOk : Nat → Bool) (cu : Claims) (store : Store) (aid : Nat)
    (user? : Option String) : HResult :=
  if "cancel:lfg" ∉ cu.permissions then errResult 403 store else
  let user := user?.getD cu.sub
  if "cancel:lfg_sudo" ∉ cu.permissions ∧ user ≠ cu.sub then errResult 403 store else
  match findAnn store aid with
  | none => errResult 404 store
  | some lfg =>
    if "cancel:lfg_admin" ∉ cu.permissions ∧ user ≠ lfg.creator_id then errResult 403 store else
    if lfg.state ≠ AnnouncementState.LOOKING_FOR_GROUP then errResult 409 store else
    let lfg2 := { lfg with state := AnnouncementState.EVENT_CANCELLED }
    let store2 := replaceAnn store lfg2
    let d := runDispatch postOk store2.webhooks (Payload.ann "cancel" lfg2)
    { outcome := if d.2 then Outcome.ok 200 else Outcome.pyError "RequestException",
      store := store2, trace := d.1 }

/-- `PUT /lfg/{aid}/answer` — `lfg_answer_put` (`__main__.py` lines 348-399).
The body is declared `models.AnnouncementEditable` in the source, and the
lookup filters on `partecipant_id == cu.sub` while the insert uses
`partecipant_id=user`; both are embedded exactly as written. -/
def lfg_answer_put (postOk : Nat → Bool) (cu : Claims) (store : Store) (aid : Nat)
    (user? : Option String) (data : AnnouncementEditable) : HResult :=
  if "answer:lfg" ∉ cu.permissions then errResult 403 store else
  let user := user?.getD cu.sub
  if "answer:lfg_sudo" ∉ cu.permissions ∧ user ≠ cu.sub then errResult 403 store else
  match store.responses.find? (fun r => decide (r.aid = aid ∧ r.partecipant_id = cu.sub)) with
  | none =>
    match Response.fromKwargs (data.dict ++ [("partecipant_id", PValue.s user)]) with
    | none => { outcome := Outcome.pyError "TypeError", store := store, trace := [] }
    | some resp =>
      let store2 := { store with responses := store.responses ++ [resp] }
      let d := runDispatch postOk store2.webhooks (Payload.ans "answer" "new" resp)
      { outcome := if d.2 then Outcome.ok 201 else Outcome.pyError "RequestException",
        store := store2, trace := Event.commit :: d.1 }
  | some resp =>
    match resp.updateKwargs data.dict with
    | none => { outcome := Outcome.pyError "TypeError", store := store, trace := [] }
    | some resp2 =>
      let store2 := replaceResp store resp2
      let d := runDispatch postOk store2.webhooks (Payload.ans "answer" "change" resp2)
      { outcome := if d.2 then Outcome.ok 200 else Outcome.pyError "RequestException",
        store := store2, trace := Event.commit :: d.1 }

/-- `POST /webhook/{wid}/test` — `webhooks_test` (`__main__.py` lines 498-522).
The handler dereferences the looked-up webhook without a `None` check, so an
absent `wid` raises `AttributeError` instead of returning 404. -/
def webhooks_test (postOk : Nat → Bool) (cu : Claims) (store : Store) (wid : Nat) : HResult :=
  if "test:webhooks" ∉ cu.permissions then errResult 403 store else
  match findWebhook store wid with
  | none => { outcome := Outcome.pyError "AttributeError", store := store, trace := [] }
  | some w =>
    if w.format = WebhookFormat.RYGLFG then
      if postOk w.wid then
        { outcome := Outcome.ok 204, store := store, trace := [Event.post w.wid Payload.test] }
      else
        { outcome := Outcome.pyError "RequestException", store := store,
          trace := [Event.post w.wid Payload.test] }
    else { outcome := Outcome.ok 204, store := store, trace := [] }

/-- Truthiness of the optional `filter_state` query parameter: `None` is falsy,
an `IntEnum` member is falsy exactly when its integer value is 0. -/
def stateTruthy : Option AnnouncementState → Bool
  | none => false
  | some s => decide (s.value ≠ 0)

/-- A `select(Announcement)` statement under construction: each builder call in
the handler sets one clause. -/
structure LfgQuery where
  whereState : Option AnnouncementState
  qoffset : Nat
  qlimit : Option Nat
  ordered : Bool
deriving DecidableEq

/-- Insert an announcement into a list sorted by ascending `autostart_time`. -/
def insertByTime (a : Announcement) : List Announcement → List Announcement
  | [] => [a]
  | b :: bs =>
    if a.autostart_time ≤ b.autostart_time then a :: b :: bs else b :: insertByTime a bs

/-- Stable sort by ascending `autostart_time` (the `ORDER BY` clause). -/
def sortByAutostart : List Announcement → List Announcement
  | [] => []
  | a :: rest => insertByTime a (sortByAutostart rest)

/-- Execute a built `select` statement: SQL applies WHERE, then ORDER BY, then
OFFSET and LIMIT, in canonical clause order regardless of the order the builder
methods were called in. -/
def execQuery (q : LfgQuery) (anns : List Announcement) : List Announcement :=
  let filtered := match q.whereState with
                  | none => anns
                  | some s => anns.filter (fun a => decide (a.state = s))
  let sorted := if q.ordered then sortByAutostart filtered else filtered
  (sorted.drop q.qoffset).take (q.qlimit.getD sorted.length)

/-- Result of the list endpoint: the rows, or an HTTP error status. -/
inductive GetResult where
  | ok (rows : List Announcement)
  | err (code : Nat)
deriving DecidableEq

/-- `GET /lfg` — `lfg_get` (`__main__.py` lines 58-87).  `limit` is declared
`f.Query(50, ge=0, le=500)`: it defaults to 50 and FastAPI rejects values over
500 with a validation error before the handler runs.  The query is built in
source order: `where` (guarded by the truthiness of `filter_state`), `offset`,
`limit`, `order_by`. -/
def lfg_get (cu : Claims) (store : Store) (limit? : Option Nat) (offset : Nat)
    (filter_state : Option AnnouncementState) : GetResult :=
  let limit := limit?.getD 50
  if limit > 500 then GetResult.err 422 else
  if "read:lfg" ∉ cu.permissions then GetResult.err 403 else
  let q0 : LfgQuery := { whereState := none, qoffset := 0, qlimit := none, ordered := false }
  let q1 := if stateTruthy filter_state then { q0 with whereState := filter_state } else q0
  let q2 := { q1 with qoffset := offset }
  let q3 := { q2 with qlimit := some limit }
  let q4 := { q3 with ordered := true }
  GetResult.ok (execQuery q4 store.announcements)

/-- The list operation as the spec words it: order the stored announcements by
ascending `autostart_time`, restrict to those whose state exactly equals the
given filter state, then apply `offset` and `limit` to that ordered filtered
sequence. -/
def listSpec (anns : List Announcement) (fs : Option AnnouncementState)
    (offset limit : Nat) : List Announcement :=
  let filtered := match fs with
                  | none => anns
                  | some s => anns.filter (fun a => decide (a.state = s))
  ((sortByAutostart filtered).drop offset).take limit

/-! ## Concrete fixtures used by the counterexample and witness theorems -/

/-- A delivery oracle under which every webhook POST returns. -/
def postAllOk : Nat → Bool := fun _ => true

/-- An open announcement created by `alice`. -/
def annOfAlice : Announcement :=
  { aid := 1, title := "Raid", description := "d", opening_time := 0, autostart_time := 10,
    creator_id := "alice", creation_time := 0, editing_time := 0,
    closer_id := none, closure_time := none, state := AnnouncementState.LOOKING_FOR_GROUP }

/-- A store holding only `alice`'s open announcement. -/
def storeC2 : Store := { announcements := [annOfAlice], responses := [], webhooks := [] }

/-- Actor `bob`, holding the base and sudo edit scopes but not the admin one. -/
def cuBobSudo : Claims := { sub := "bob", permissions := ["edit:lfg", "edit:lfg_sudo"] }

/-- A replacement body for an edit request. -/
def editBody : AnnouncementEditable :=
  { title := "Raid2", description := "d2", opening_time := 1, autostart_time := 11 }

/-- An open announcement created by `xavier`. -/
def annC3 : Announcement :=
  { aid := 1, title := "Dungeon", description := "d", opening_time := 0, autostart_time := 5,
    creator_id := "xavier", creation_time := 0, editing_time := 0,
    closer_id := none, closure_time := none, state := AnnouncementState.LOOKING_FOR_GROUP }

/-- A store holding `xavier`'s open announcement and no responses. -/
def storeC3 : Store := { announcements := [annC3], responses := [], webhooks := [] }

/-- A sudoer holding the base and sudo answer scopes. -/
def cuSudoer : Claims := { sub := "sudoer", permissions := ["answer:lfg", "answer:lfg_sudo"] }

/-- A well-typed request body for the answer endpoint, which the source
declares as `models.AnnouncementEditable`. -/
def bodyC3 : AnnouncementEditable :=
  { title := "t", description := "d", opening_time := 0, autostart_time := 5 }

/-- An open announcement created by `carol`. -/
def annC4 : Announcement :=
  { aid := 1, title := "Heist", description := "d", opening_time := 0, autostart_time := 3,
    creator_id := "carol", creation_time := 0, editing_time := 0,
    closer_id := none, closure_time := none, state := AnnouncementState.LOOKING_FOR_GROUP }

/-- A single registered webhook with id 7. -/
def whC4 : Webhook := { wid := 7, url := "http://example.com/hook", format := WebhookFormat.RYGLFG }

/-- A store with `carol`'s open announcement and one registered webhook. -/
def storeC4 : Store := { announcements := [annC4], responses := [], webhooks := [whC4] }

/-- Actor `carol`, holding the create and start base scopes. -/
def cuCarol : Claims := { sub := "carol", permissions := ["start:lfg", "create:lfg"] }

/-- A creation body for the create endpoint. -/
def bodyC4 : AnnouncementEditable :=
  { title := "New", description := "n", opening_time := 2, autostart_time := 20 }

/-- The announcement row the store assigns when `bodyC4` is inserted into
`storeC4` by `carol`. -/
def createdC4 : Announcement :=
  { aid := 2, title := "New", description := "n", opening_time := 2, autostart_time := 20,
    creator_id := "carol", creation_time := 0, editing_time := 0,
    closer_id := none, closure_time := none, state := AnnouncementState.LOOKING_FOR_GROUP }

/-- An open announcement created by `carl`. -/
def annC5 : Announcement :=
  { aid := 1, title := "Run", description := "d", opening_time := 0, autostart_time := 4,
    creator_id := "carl", creation_time := 0, editing_time := 0,
    closer_id := none, closure_time := none, state := AnnouncementState.LOOKING_FOR_GROUP }

/-- A store with two registered webhooks (ids 1 and 2). -/
def storeC5 : Store :=
  { announcements := [annC5], responses := [],
    webhooks := [{ wid := 1, url := "http://a/h", format := WebhookFormat.RYGLFG },
                 { wid := 2, url := "http://b/h", format := WebhookFormat.RYGLFG }] }

/-- A delivery oracle under which the POST to webhook 1 raises and every other
POST returns. -/
def postFail1 : Nat → Bool := fun w => decide (w ≠ 1)

/-- Actor `carl`, holding only the base start scope. -/
def cuCarl : Claims := { sub := "carl", permissions := ["start:lfg"] }

/-- An open announcement created by `uma`. -/
def annC6 : Announcement :=
  { aid := 2, title := "Quest", description := "d", opening_time := 0, autostart_time := 6,
    creator_id := "uma", creation_time := 0, editing_time := 0,
    closer_id := none, closure_time := none, state := AnnouncementState.LOOKING_FOR_GROUP }

/-- A store holding `uma`'s open announcement and no responses. -/
def storeC6 : Store := { announcements := [annC6], responses := [], webhooks := [] }

/-- Actor `uma`, answering on her own behalf with the base answer scope. -/
def cuUma : Claims := { sub := "uma", permissions := ["answer:lfg"] }

/-- A store with a single webhook of id 5; id 99 is absent. -/
def storeC10 : Store :=
  { announcements := [], responses := [],
    webhooks := [{ wid := 5, url := "http://c/h", format := WebhookFormat.RYGLFG }] }

/-- Actor `tess`, holding the webhook test scope. -/
def cuTess : Claims := { sub := "tess", permissions := ["test:webhooks"] }

/-! ## Claim theorems (counterexamples and failing-input evaluations) -/

/-- C2: counterexample — `bob`, who did not create announcement 1 and holds
`edit:lfg` and `edit:lfg_sudo` but not `edit:lfg_admin`, successfully edits
`alice`'s open announcement, so an edit on another user's announcement does not
require the `edit:lfg_admin` scope. -/
theorem C2_counterexample :
    (lfg_put cuBobSudo storeC2 1 editBody).outcome = Outcome.ok 200
    ∧ "edit:lfg_admin" ∉ cuBobSudo.permissions
    ∧ annOfAlice.creator_id ≠ cuBobSudo.sub := by decide

/-- C3: the answer upsert evaluated at a failing input — a sudoer answering on
behalf of `xavier` twice.  Because the handler parses the body as
`AnnouncementEditable` and passes its fields to the `Response` constructor,
both calls raise `TypeError`; no `Response` row is ever created, and the second
call does not report an updated status.  (The lookup also filters on `cu.sub`
rather than the acted-for participant, so even a repaired constructor would
miss `xavier`'s existing row.) -/
theorem C3_theorem :
    (lfg_answer_put postAllOk cuSudoer storeC3 1 (some "xavier") bodyC3).outcome
      = Outcome.pyError "TypeError"
    ∧ (lfg_answer_put postAllOk cuSudoer
        (lfg_answer_put postAllOk cuSudoer storeC3 1 (some "xavier") bodyC3).store
        1 (some "xavier") bodyC3).outcome = Outcome.pyError "TypeError"
    ∧ (lfg_answer_put postAllOk cuSudoer storeC3 1 (some "xavier") bodyC3).store.responses
      = [] := by decide

/-- C4: the start handler evaluated at a failing input — an authorized start on
an open announcement with one registered webhook dispatches the "start"
notification without any preceding commit (its trace holds no commit event at
all), while the create handler does commit before dispatching. -/
theorem C4_theorem :
    (lfg_start postAllOk cuCarol storeC4 1 none).trace
      = [Event.post 7 (Payload.ann "start" { annC4 with state := AnnouncementState.EVENT_STARTED })]
    ∧ Event.commit ∉ (lfg_start postAllOk cuCarol storeC4 1 none).trace
    ∧ (lfg_post postAllOk cuCarol storeC4 none bodyC4).trace
      = [Event.commit, Event.post 7 (Payload.ann "create" createdC4)] := by decide

/-- C5: counterexample — with webhooks 1 and 2 registered and the delivery to
webhook 1 raising, the start handler attempts delivery only to webhook 1
(webhook 2 never receives an attempt) and the failure is surfaced to the caller
as an uncaught exception. -/
theorem C5_counterexample :
    (lfg_start postFail1 cuCarl storeC5 1 none).trace
      = [Event.post 1 (Payload.ann "start" { annC5 with state := AnnouncementState.EVENT_STARTED })]
    ∧ (lfg_start postFail1 cuCarl storeC5 1 none).outcome
      = Outcome.pyError "RequestException" := by decide

/-- C6: the answer handler evaluated at a failing input — `uma` answering her
own open announcement.  The body is declared `models.AnnouncementEditable`, so
no participation choice ever reaches the `Response` constructor; the call
raises `TypeError`, stores nothing, and dispatches nothing. -/
theorem C6_theorem :
    (lfg_answer_put postAllOk cuUma storeC6 2 none bodyC3).outcome
      = Outcome.pyError "TypeError"
    ∧ (lfg_answer_put postAllOk cuUma storeC6 2 none bodyC3).store.responses = []
    ∧ (lfg_answer_put postAllOk cuUma storeC6 2 none bodyC3).trace = [] := by decide

/-! ## Helper lemmas -/

/-- The code's closed-state test `lfg.state > LOOKING_FOR_GROUP` holds exactly
for the two terminal states. -/
theorem state_gt_iff (s : AnnouncementState) :
    s.value > AnnouncementState.LOOKING_FOR_GROUP.value ↔
      s ≠ AnnouncementState.LOOKING_FOR_GROUP := by
  cases s <;> decide

/-- `lfg.update(**data.dict())` with an `AnnouncementEditable` body always
succeeds and replaces exactly the four editable columns. -/
theorem updateKwargs_dict (a : Announcement) (d : AnnouncementEditable) :
    a.updateKwargs d.dict
      = some { a with
          title := d.title
          description := d.description
          opening_time := d.opening_time
          autostart_time := d.autostart_time } := rfl

/-- When every delivery returns, the dispatch loop attempts each webhook once,
in registration order. -/
theorem runDispatch_all_ok (postOk : Nat → Bool) (p : Payload) :
    ∀ ws : List Webhook, (∀ w ∈ ws, postOk w.wid = true) →
      runDispatch postOk ws p = (ws.map (fun w => Event.post w.wid p), true) := by
  intro ws
  induction ws with
  | nil => intro _; rfl
  | cons w rest ih =>
    intro h
    have hw : postOk w.wid = true := h w (List.mem_cons_self w rest)
    simp [runDispatch, hw, ih (fun x hx => h x (List.mem_cons_of_mem w hx))]

/-- The dispatch loop terminates by a raised exception exactly when some
registered webhook's delivery raises. -/
theorem runDispatch_fail_iff (postOk : Nat → Bool) (p : Payload) :
    ∀ ws : List Webhook,
      (runDispatch postOk ws p).2 = false ↔ ∃ w ∈ ws, postOk w.wid = false := by
  intro ws
  induction ws with
  | nil => simp [runDispatch]
  | cons w rest ih =>
    by_cases hw : postOk w.wid
    · simp [runDispatch, hw, ih]
    · simp only [Bool.not_eq_true] at hw
      simp [runDispatch, hw]

/-! ## C1: start/cancel lifecycle guard -/

/-- C1's property at one input: with the scope prerequisites met, a `start` or
`cancel` on an announcement outside `LOOKING_FOR_GROUP` yields exactly a 409
with the store untouched and an empty trace, while from `LOOKING_FOR_GROUP`
`start` moves the row to `EVENT_STARTED` and `cancel` to `EVENT_CANCELLED`. -/
def StartCancelProp (postOk : Nat → Bool) (sub : String) (P : List String)
    (store : Store) (aid : Nat) (user? : Option String) (lfg : Announcement) : Prop :=
  (lfg.state ≠ AnnouncementState.LOOKING_FOR_GROUP →
     lfg_start postOk { sub := sub, permissions := P } store aid user?
       = { outcome := Outcome.httpError 409, store := store, trace := [] }
     ∧ lfg_cancel postOk { sub := sub, permissions := P } store aid user?
       = { outcome := Outcome.httpError 409, store := store, trace := [] })
  ∧ (lfg.state = AnnouncementState.LOOKING_FOR_GROUP →
     (lfg_start postOk { sub := sub, permissions := P } store aid user?).store
       = replaceAnn store { lfg with state := AnnouncementState.EVENT_STARTED }
     ∧ (lfg_cancel postOk { sub := sub, permissions := P } store aid user?).store
       = replaceAnn store { lfg with state := AnnouncementState.EVENT_CANCELLED })

/-- C1: for an announcement whose state is not `LOOKING_FOR_GROUP`, an
authorized start or cancel request is rejected with 409, the store is
unchanged, and no webhook delivery happens; from `LOOKING_FOR_GROUP`, start
sets `EVENT_STARTED` and cancel sets `EVENT_CANCELLED`. -/
theorem C1_theorem (postOk : Nat → Bool) (sub : String) (P : List String)
    (store : Store) (aid : Nat) (user? : Option String) (lfg : Announcement)
    (hfind : findAnn store aid = some lfg)
    (hs1 : "start:lfg" ∈ P) (hc1 : "cancel:lfg" ∈ P)
    (hs2 : "start:lfg_sudo" ∈ P ∨ user?.getD sub = sub)
    (hc2 : "cancel:lfg_sudo" ∈ P ∨ user?.getD sub = sub)
    (hs3 : "start:lfg_admin" ∈ P ∨ user?.getD sub = lfg.creator_id)
    (hc3 : "cancel:lfg_admin" ∈ P ∨ user?.getD sub = lfg.creator_id) :
    StartCancelProp postOk sub P store aid user? lfg := by
  have g2 : ¬("start:lfg_sudo" ∉ P ∧ user?.getD sub ≠ sub) := by
    rcases hs2 with h | h
    · exact fun hc => hc.1 h
    · exact fun hc => hc.2 h
  have g2c : ¬("cancel:lfg_sudo" ∉ P ∧ user?.getD sub ≠ sub) := by
    rcases hc2 with h | h
    · exact fun hc => hc.1 h
    · exact fun hc => hc.2 h
  have g3 : ¬("start:lfg_admin" ∉ P ∧ user?.getD sub ≠ lfg.creator_id) := by
    rcases hs3 with h | h
    · exact fun hc => hc.1 h
    · exact fun hc => hc.2 h
  have g3c : ¬("cancel:lfg_admin" ∉ P ∧ user?.getD sub ≠ lfg.creator_id) := by
    rcases hc3 with h | h
    · exact fun hc => hc.1 h
    · exact fun hc => hc.2 h
  constructor
  · intro hstate
    constructor
    · simp [lfg_start, hs1, g2, hfind, g3, hstate, errResult]
    · simp [lfg_cancel, hc1, g2c, hfind, g3c, hstate, errResult]
  · intro hstate
    constructor
    · simp [lfg_start, hs1, g2, hfind, g3, hstate, errResult]
    · simp [lfg_cancel, hc1, g2c, hfind, g3c, hstate, errResult]

/-- A started (terminal) announcement created by `wes`. -/
def annStartedW : Announcement :=
  { aid := 3, title := "Done", description := "d", opening_time := 0, autostart_time := 7,
    creator_id := "wes", creation_time := 0, editing_time := 0,
    closer_id := none, closure_time := none, state := AnnouncementState.EVENT_STARTED }

/-- A store holding only `wes`'s started announcement. -/
def storeC1 : Store := { announcements := [annStartedW], responses := [], webhooks := [] }

/-- Witness for C1 at a concrete input: `wes` starting or cancelling his own
already-started announcement. -/
theorem C1_witness :
    (findAnn storeC1 3 = some annStartedW
      ∧ "start:lfg" ∈ ["start:lfg", "cancel:lfg"]
      ∧ "cancel:lfg" ∈ ["start:lfg", "cancel:lfg"])
    ∧ StartCancelProp postAllOk "wes" ["start:lfg", "cancel:lfg"] storeC1 3 none annStartedW :=
  ⟨by decide,
   C1_theorem postAllOk "wes" ["start:lfg", "cancel:lfg"] storeC1 3 none annStartedW
     (by decide) (by decide) (by decide) (by decide) (by decide)
     (by decide) (by decide)⟩

/-! ## C8: quiet idempotent delete -/

/-- C8's property at one input: with the admin scope, delete reports 204
whether or not the row exists, never dispatches, treats an absent row as a
no-op success, and a second delete of the same `aid` also reports 204. -/
def DeleteProp (sub : String) (P : List String) (store : Store) (aid : Nat) : Prop :=
  (lfg_delete { sub := sub, permissions := P } store aid).outcome = Outcome.ok 204
  ∧ (∀ e ∈ (lfg_delete { sub := sub, permissions := P } store aid).trace, e.isPost = false)
  ∧ (findAnn store aid = none →
      lfg_delete { sub := sub, permissions := P } store aid
        = { outcome := Outcome.ok 204, store := store, trace := [] })
  ∧ (lfg_delete { sub := sub, permissions := P }
      (lfg_delete { sub := sub, permissions := P } store aid).store aid).outcome
      = Outcome.ok 204

/-- Any delete with the admin scope reports 204 and performs no webhook POST. -/
theorem lfg_delete_quiet_ok (sub : String) (P : List String) (store : Store) (aid : Nat)
    (h : "delete:lfg_admin" ∈ P) :
    (lfg_delete { sub := sub, permissions := P } store aid).outcome = Outcome.ok 204
    ∧ ∀ e ∈ (lfg_delete { sub := sub, permissions := P } store aid).trace, e.isPost = false := by
  cases hfind : findAnn store aid <;>
    simp [lfg_delete, h, hfind, Event.isPost]

/-- C8: given the `delete:lfg_admin` scope, delete is idempotent and quiet —
204 on a nonexistent aid, no error on a repeated delete, and no webhook
notification ever. -/
theorem C8_theorem (sub : String) (P : List String) (store : Store) (aid : Nat)
    (h : "delete:lfg_admin" ∈ P) : DeleteProp sub P store aid := by
  refine ⟨(lfg_delete_quiet_ok sub P store aid h).1,
          (lfg_delete_quiet_ok sub P store aid h).2, ?_, ?_⟩
  · intro hfind
    simp [lfg_delete, h, hfind]
  · exact (lfg_delete_quiet_ok sub P
      (lfg_delete { sub := sub, permissions := P } store aid).store aid h).1

/-- Witness for C8 at a concrete input: deleting announcement 1 (present) and
announcement 9 (absent) out of `storeC2` with the admin scope. -/
theorem C8_witness :
    ("delete:lfg_admin" ∈ ["delete:lfg_admin"]
      ∧ DeleteProp "dana" ["delete:lfg_admin"] storeC2 1)
    ∧ DeleteProp "dana" ["delete:lfg_admin"] storeC2 9 :=
  ⟨⟨by decide, C8_theorem "dana" ["delete:lfg_admin"] storeC2 1 (by decide)⟩,
   C8_theorem "dana" ["delete:lfg_admin"] storeC2 9 (by decide)⟩

/-! ## C2: edit authorization tiers -/

/-- C2 (amended): with the announcement present, an edit succeeds exactly when
the actor holds `edit:lfg`, is the creator or holds `edit:lfg_sudo`, and the
announcement is open or the actor holds `edit:lfg_admin` — so editing another
user's open announcement requires the sudo scope (not the admin one), and only
editing a closed announcement requires `edit:lfg_admin`. -/
theorem C2_theorem (sub : String) (P : List String) (store : Store) (aid : Nat)
    (data : AnnouncementEditable) (lfg : Announcement)
    (hfind : findAnn store aid = some lfg) :
    (lfg_put { sub := sub, permissions := P } store aid data).outcome = Outcome.ok 200
    ↔ ("edit:lfg" ∈ P
       ∧ (lfg.creator_id = sub ∨ "edit:lfg_sudo" ∈ P)
       ∧ (lfg.state = AnnouncementState.LOOKING_FOR_GROUP ∨ "edit:lfg_admin" ∈ P)) := by
  by_cases h1 : "edit:lfg" ∈ P
  · by_cases h2 : lfg.creator_id ≠ sub ∧ "edit:lfg_sudo" ∉ P
    · simp [lfg_put, hfind, h1, h2.1, h2.2, errResult]
    · by_cases h3 : lfg.state.value > AnnouncementState.LOOKING_FOR_GROUP.value
          ∧ "edit:lfg_admin" ∉ P
      · have hne := (state_gt_iff lfg.state).mp h3.1
        simp [lfg_put, hfind, h1, h2, h3, hne, errResult]
      · have hA : lfg.creator_id = sub ∨ "edit:lfg_sudo" ∈ P := by
          rcases not_and_or.mp h2 with h | h
          · exact Or.inl (not_not.mp h)
          · exact Or.inr (not_not.mp h)
        have hB : lfg.state = AnnouncementState.LOOKING_FOR_GROUP ∨ "edit:lfg_admin" ∈ P := by
          rcases not_and_or.mp h3 with h | h
          · left
            by_contra hne
            exact h ((state_gt_iff lfg.state).mpr hne)
          · exact Or.inr (not_not.mp h)
        simp [lfg_put, hfind, h1, h2, h3, updateKwargs_dict, hA, hB]
  · simp [lfg_put, hfind, h1, errResult]

/-- Witness for C2 at a concrete input: `bob` (sudo but not admin) editing
`alice`'s open announcement. -/
theorem C2_witness :
    (findAnn storeC2 1 = some annOfAlice)
    ∧ ((lfg_put { sub := "bob", permissions := ["edit:lfg", "edit:lfg_sudo"] } storeC2 1 editBody).outcome
         = Outcome.ok 200
       ↔ ("edit:lfg" ∈ ["edit:lfg", "edit:lfg_sudo"]
          ∧ (annOfAlice.creator_id = "bob" ∨ "edit:lfg_sudo" ∈ ["edit:lfg", "edit:lfg_sudo"])
          ∧ (annOfAlice.state = AnnouncementState.LOOKING_FOR_GROUP
             ∨ "edit:lfg_admin" ∈ ["edit:lfg", "edit:lfg_sudo"]))) :=
  ⟨by decide, C2_theorem "bob" ["edit:lfg", "edit:lfg_sudo"] storeC2 1 editBody annOfAlice (by decide)⟩

/-! ## C5: webhook fan-out (amended) -/

/-- The dispatch loop reads the webhook table through the mutated session view,
which `replaceAnn` leaves untouched. -/
theorem replaceAnn_webhooks (s : Store) (a : Announcement) :
    (replaceAnn s a).webhooks = s.webhooks := rfl

/-- C5 (amended)'s property at one input: when every delivery returns, an
authorized start attempts delivery to every registered webhook exactly once in
registration order and succeeds; and the call surfaces an uncaught delivery
exception precisely when some registered webhook's delivery raises (a raising
delivery aborts the loop, as `C5_counterexample` shows concretely). -/
def DispatchProp (postOk : Nat → Bool) (sub : String) (P : List String)
    (store : Store) (aid : Nat) (lfg : Announcement) : Prop :=
  ((∀ w ∈ store.webhooks, postOk w.wid = true) →
     lfg_start postOk { sub := sub, permissions := P } store aid none
       = { outcome := Outcome.ok 200,
           store := replaceAnn store { lfg with state := AnnouncementState.EVENT_STARTED },
           trace := store.webhooks.map (fun w =>
             Event.post w.wid (Payload.ann "start"
               { lfg with state := AnnouncementState.EVENT_STARTED })) })
  ∧ ((lfg_start postOk { sub := sub, permissions := P } store aid none).outcome
       = Outcome.pyError "RequestException"
     ↔ ∃ w ∈ store.webhooks, postOk w.wid = false)

/-- C5 (amended): an authorized start on an open announcement attempts delivery
to each registered webhook once when no delivery raises, and a raising delivery
is surfaced to the caller (delivery failures are not swallowed). -/
theorem C5_theorem (postOk : Nat → Bool) (sub : String) (P : List String)
    (store : Store) (aid : Nat) (lfg : Announcement)
    (hfind : findAnn store aid = some lfg)
    (hstate : lfg.state = AnnouncementState.LOOKING_FOR_GROUP)
    (h1 : "start:lfg" ∈ P)
    (h3 : "start:lfg_admin" ∈ P ∨ sub = lfg.creator_id) :
    DispatchProp postOk sub P store aid lfg := by
  have hrun : lfg_start postOk { sub := sub, permissions := P } store aid none
      = { outcome := if (runDispatch postOk store.webhooks
                          (Payload.ann "start" { lfg with state := AnnouncementState.EVENT_STARTED })).2
                     then Outcome.ok 200 else Outcome.pyError "RequestException",
          store := replaceAnn store { lfg with state := AnnouncementState.EVENT_STARTED },
          trace := (runDispatch postOk store.webhooks
                     (Payload.ann "start" { lfg with state := AnnouncementState.EVENT_STARTED })).1 } := by
    rcases h3 with h | h
    · simp [lfg_start, h1, hfind, hstate, replaceAnn_webhooks, h]
    · simp [lfg_start, h1, hfind, hstate, replaceAnn_webhooks, h]
  constructor
  · intro hall
    have hrd := runDispatch_all_ok postOk
      (Payload.ann "start" { lfg with state := AnnouncementState.EVENT_STARTED })
      store.webhooks hall
    rw [hrun, hrd]
    simp
  · have hiff := runDispatch_fail_iff postOk
      (Payload.ann "start" { lfg with state := AnnouncementState.EVENT_STARTED })
      store.webhooks
    rw [hrun, ← hiff]
    cases hd : (runDispatch postOk store.webhooks
        (Payload.ann "start" { lfg with state := AnnouncementState.EVENT_STARTED })).2 <;>
      simp [hd]

/-- Witness for C5 at a concrete input: `carl` starting his own open
announcement with two registered webhooks and every delivery returning. -/
theorem C5_witness :
    (findAnn storeC5 1 = some annC5
      ∧ annC5.state = AnnouncementState.LOOKING_FOR_GROUP
      ∧ "start:lfg" ∈ cuCarl.permissions
      ∧ ("start:lfg_admin" ∈ cuCarl.permissions ∨ "carl" = annC5.creator_id))
    ∧ DispatchProp postAllOk "carl" ["start:lfg"] storeC5 1 annC5 :=
  ⟨by decide,
   C5_theorem postAllOk "carl" ["start:lfg"] storeC5 1 annC5
     (by decide) (by decide) (by decide) (by decide)⟩

/-! ## C7: list ordering, filtering, pagination -/

/-- C7's property at one input: the list endpoint, given the read scope,
returns exactly `listSpec` (exact-state filter, ascending `autostart_time`
order, then offset and limit) with the limit defaulting to 50, and rejects a
limit over 500 with a validation error. -/
def ListProp (sub : String) (P : List String) (store : Store)
    (limit? : Option Nat) (offset : Nat) (fs : Option AnnouncementState) : Prop :=
  (limit?.getD 50 ≤ 500 →
     lfg_get { sub := sub, permissions := P } store limit? offset fs
       = GetResult.ok (listSpec store.announcements fs offset (limit?.getD 50)))
  ∧ (limit?.getD 50 > 500 →
     lfg_get { sub := sub, permissions := P } store limit? offset fs = GetResult.err 422)

/-- C7: the list operation returns the stored announcements ordered by
ascending `autostart_time`, filtered by exact state match when a filter state
is given (including `LOOKING_FOR_GROUP`), with offset and limit applied to the
ordered filtered sequence; limit defaults to 50 and is bounded by 500. -/
theorem C7_theorem (sub : String) (P : List String) (store : Store)
    (limit? : Option Nat) (offset : Nat) (fs : Option AnnouncementState)
    (hP : "read:lfg" ∈ P) : ListProp sub P store limit? offset fs := by
  constructor
  · intro hl
    have hnl : ¬(limit?.getD 50 > 500) := not_lt.mpr hl
    cases fs with
    | none => simp [lfg_get, hnl, hP, execQuery, stateTruthy, listSpec]
    | some s =>
      have hts : stateTruthy (some s) = true := by cases s <;> decide
      simp [lfg_get, hnl, hP, execQuery, hts, listSpec]
  · intro hl
    simp [lfg_get, hl]

/-- An open announcement with autostart time 30. -/
def annO30 : Announcement :=
  { aid := 1, title := "o30", description := "d", opening_time := 0, autostart_time := 30,
    creator_id := "pau", creation_time := 0, editing_time := 0,
    closer_id := none, closure_time := none, state := AnnouncementState.LOOKING_FOR_GROUP }

/-- A started announcement with autostart time 5. -/
def annS5 : Announcement :=
  { aid := 2, title := "s5", description := "d", opening_time := 0, autostart_time := 5,
    creator_id := "pau", creation_time := 0, editing_time := 0,
    closer_id := none, closure_time := none, state := AnnouncementState.EVENT_STARTED }

/-- An open announcement with autostart time 10. -/
def annO10 : Announcement :=
  { aid := 3, title := "o10", description := "d", opening_time := 0, autostart_time := 10,
    creator_id := "pau", creation_time := 0, editing_time := 0,
    closer_id := none, closure_time := none, state := AnnouncementState.LOOKING_FOR_GROUP }

/-- A started announcement with autostart time 7. -/
def annS7 : Announcement :=
  { aid := 4, title := "s7", description := "d", opening_time := 0, autostart_time := 7,
    creator_id := "pau", creation_time := 0, editing_time := 0,
    closer_id := none, closure_time := none, state := AnnouncementState.EVENT_STARTED }

/-- An open announcement with autostart time 20. -/
def annO20 : Announcement :=
  { aid := 5, title := "o20", description := "d", opening_time := 0, autostart_time := 20,
    creator_id := "pau", creation_time := 0, editing_time := 0,
    closer_id := none, closure_time := none, state := AnnouncementState.LOOKING_FOR_GROUP }

/-- Five announcements: three open, two started, in jumbled autostart order. -/
def storeC7 : Store :=
  { announcements := [annO30, annS5, annO10, annS7, annO20], responses := [], webhooks := [] }

/-- Witness for C7 at the spec's scenario: filtering five announcements (three
open, two started) by `LOOKING_FOR_GROUP` with limit 2 and offset 0 returns
exactly the two earliest-autostart open announcements. -/
theorem C7_witness :
    ("read:lfg" ∈ (["read:lfg"] : List String))
    ∧ ListProp "rita" ["read:lfg"] storeC7 (some 2) 0 (some AnnouncementState.LOOKING_FOR_GROUP)
    ∧ listSpec storeC7.announcements (some AnnouncementState.LOOKING_FOR_GROUP) 0 2
        = [annO10, annO20] :=
  ⟨by decide,
   C7_theorem "rita" ["read:lfg"] storeC7 (some 2) 0
     (some AnnouncementState.LOOKING_FOR_GROUP) (by decide),
   by decide⟩

/-! ## C9: authorization monotonicity -/

/-- `lfg_start` is monotone in the permission set: a run that was not denied
under `P` behaves identically under any superset `Q`. -/
theorem start_mono (postOk : Nat → Bool) (sub : String) (P Q : List String)
    (hPQ : ∀ s, s ∈ P → s ∈ Q) (store : Store) (aid : Nat) (user? : Option String)
    (h : (lfg_start postOk { sub := sub, permissions := P } store aid user?).outcome
          ≠ Outcome.httpError 403) :
    lfg_start postOk { sub := sub, permissions := Q } store aid user?
      = lfg_start postOk { sub := sub, permissions := P } store aid user? := by
  have h1 : "start:lfg" ∈ P := by
    by_contra h1
    exact h (by simp [lfg_start, h1, errResult])
  have h2 : ¬("start:lfg_sudo" ∉ P ∧ user?.getD sub ≠ sub) := by
    intro h2
    exact h (by simp [lfg_start, h1, h2.1, h2.2, errResult])
  have hq2 : ¬("start:lfg_sudo" ∉ Q ∧ user?.getD sub ≠ sub) := by
    rcases not_and_or.mp h2 with hs | hs
    · exact fun hc => hc.1 (hPQ _ (not_not.mp hs))
    · exact fun hc => hs hc.2
  cases hfind : findAnn store aid with
  | none => simp [lfg_start, h1, hPQ _ h1, h2, hq2, hfind]
  | some lfg =>
    have h3 : ¬("start:lfg_admin" ∉ P ∧ user?.getD sub ≠ lfg.creator_id) := by
      intro h3
      exact h (by simp [lfg_start, h1, h2, hfind, h3.1, h3.2, errResult])
    have hq3 : ¬("start:lfg_admin" ∉ Q ∧ user?.getD sub ≠ lfg.creator_id) := by
      rcases not_and_or.mp h3 with hs | hs
      · exact fun hc => hc.1 (hPQ _ (not_not.mp hs))
      · exact fun hc => hs hc.2
    simp [lfg_start, h1, hPQ _ h1, h2, hq2, h3, hq3, hfind]

/-- `lfg_cancel` is monotone in the permission set. -/
theorem cancel_mono (postOk : Nat → Bool) (sub : String) (P Q : List String)
    (hPQ : ∀ s, s ∈ P → s ∈ Q) (store : Store) (aid : Nat) (user? : Option String)
    (h : (lfg_cancel postOk { sub := sub, permissions := P } store aid user?).outcome
          ≠ Outcome.httpError 403) :
    lfg_cancel postOk { sub := sub, permissions := Q } store aid user?
      = lfg_cancel postOk { sub := sub, permissions := P } store aid user? := by
  have h1 : "cancel:lfg" ∈ P := by
    by_contra h1
    exact h (by simp [lfg_cancel, h1, errResult])
  have h2 : ¬("cancel:lfg_sudo" ∉ P ∧ user?.getD sub ≠ sub) := by
    intro h2
    exact h (by simp [lfg_cancel, h1, h2.1, h2.2, errResult])
  have hq2 : ¬("cancel:lfg_sudo" ∉ Q ∧ user?.getD sub ≠ sub) := by
    rcases not_and_or.mp h2 with hs | hs
    · exact fun hc => hc.1 (hPQ _ (not_not.mp hs))
    · exact fun hc => hs hc.2
  cases hfind : findAnn store aid with
  | none => simp [lfg_cancel, h1, hPQ _ h1, h2, hq2, hfind]
  | some lfg =>
    have h3 : ¬("cancel:lfg_admin" ∉ P ∧ user?.getD sub ≠ lfg.creator_id) := by
      intro h3
      exact h (by simp [lfg_cancel, h1, h2, hfind, h3.1, h3.2, errResult])
    have hq3 : ¬("cancel:lfg_admin" ∉ Q ∧ user?.getD sub ≠ lfg.creator_id) := by
      rcases not_and_or.mp h3 with hs | hs
      · exact fun hc => hc.1 (hPQ _ (not_not.mp hs))
      · exact fun hc => hs hc.2
    simp [lfg_cancel, h1, hPQ _ h1, h2, hq2, h3, hq3, hfind]

/-- `lfg_put` is monotone in the permission set. -/
theorem put_mono (sub : String) (P Q : List String) (hPQ : ∀ s, s ∈ P → s ∈ Q)
    (store : Store) (aid : Nat) (data : AnnouncementEditable)
    (h : (lfg_put { sub := sub, permissions := P } store aid data).outcome
          ≠ Outcome.httpError 403) :
    lfg_put { sub := sub, permissions := Q } store aid data
      = lfg_put { sub := sub, permissions := P } store aid data := by
  have h1 : "edit:lfg" ∈ P := by
    by_contra h1
    exact h (by simp [lfg_put, h1, errResult])
  cases hfind : findAnn store aid with
  | none => simp [lfg_put, h1, hPQ _ h1, hfind]
  | some lfg =>
    have h2 : ¬(lfg.creator_id ≠ sub ∧ "edit:lfg_sudo" ∉ P) := by
      intro h2
      exact h (by simp [lfg_put, h1, hfind, h2.1, h2.2, errResult])
    have hq2 : ¬(lfg.creator_id ≠ sub ∧ "edit:lfg_sudo" ∉ Q) := by
      rcases not_and_or.mp h2 with hs | hs
      · exact fun hc => hs hc.1
      · exact fun hc => hc.2 (hPQ _ (not_not.mp hs))
    have h3 : ¬(lfg.state.value > AnnouncementState.LOOKING_FOR_GROUP.value
        ∧ "edit:lfg_admin" ∉ P) := by
      intro h3
      exact h (by simp [lfg_put, h1, hfind, h2, h3.1, h3.2, errResult])
    have hq3 : ¬(lfg.state.value > AnnouncementState.LOOKING_FOR_GROUP.value
        ∧ "edit:lfg_admin" ∉ Q) := by
      rcases not_and_or.mp h3 with hs | hs
      · exact fun hc => hs hc.1
      · exact fun hc => hc.2 (hPQ _ (not_not.mp hs))
    simp [lfg_put, h1, hPQ _ h1, hfind, h2, hq2, h3, hq3]

/-- `lfg_post` is monotone in the permission set. -/
theorem post_mono (postOk : Nat → Bool) (sub : String) (P Q : List String)
    (hPQ : ∀ s, s ∈ P → s ∈ Q) (store : Store) (user? : Option String)
    (data : AnnouncementEditable)
    (h : (lfg_post postOk { sub := sub, permissions := P } store user? data).outcome
          ≠ Outcome.httpError 403) :
    lfg_post postOk { sub := sub, permissions := Q } store user? data
      = lfg_post postOk { sub := sub, permissions := P } store user? data := by
  have h1 : "create:lfg" ∈ P := by
    by_contra h1
    exact h (by simp [lfg_post, h1, errResult])
  have h2 : ¬("create:lfg_sudo" ∉ P ∧ user?.getD sub ≠ sub) := by
    intro h2
    exact h (by simp [lfg_post, h1, h2.1, h2.2, errResult])
  have hq2 : ¬("create:lfg_sudo" ∉ Q ∧ user?.getD sub ≠ sub) := by
    rcases not_and_or.mp h2 with hs | hs
    · exact fun hc => hc.1 (hPQ _ (not_not.mp hs))
    · exact fun hc => hs hc.2
  simp [lfg_post, h1, hPQ _ h1, h2, hq2]

/-- `lfg_delete` is monotone in the permission set. -/
theorem delete_mono (sub : String) (P Q : List String) (hPQ : ∀ s, s ∈ P → s ∈ Q)
    (store : Store) (aid : Nat)
    (h : (lfg_delete { sub := sub, permissions := P } store aid).outcome
          ≠ Outcome.httpError 403) :
    lfg_delete { sub := sub, permissions := Q } store aid
      = lfg_delete { sub := sub, permissions := P } store aid := by
  have h1 : "delete:lfg_admin" ∈ P := by
    by_contra h1
    exact h (by simp [lfg_delete, h1, errResult])
  simp [lfg_delete, h1, hPQ _ h1]

/-- `lfg_answer_put` is monotone in the permission set. -/
theorem answer_mono (postOk : Nat → Bool) (sub : String) (P Q : List String)
    (hPQ : ∀ s, s ∈ P → s ∈ Q) (store : Store) (aid : Nat) (user? : Option String)
    (data : AnnouncementEditable)
    (h : (lfg_answer_put postOk { sub := sub, permissions := P } store aid user? data).outcome
          ≠ Outcome.httpError 403) :
    lfg_answer_put postOk { sub := sub, permissions := Q } store aid user? data
      = lfg_answer_put postOk { sub := sub, permissions := P } store aid user? data := by
  have h1 : "answer:lfg" ∈ P := by
    by_contra h1
    exact h (by simp [lfg_answer_put, h1, errResult])
  have h2 : ¬("answer:lfg_sudo" ∉ P ∧ user?.getD sub ≠ sub) := by
    intro h2
    exact h (by simp [lfg_answer_put, h1, h2.1, h2.2, errResult])
  have hq2 : ¬("answer:lfg_sudo" ∉ Q ∧ user?.getD sub ≠ sub) := by
    rcases not_and_or.mp h2 with hs | hs
    · exact fun hc => hc.1 (hPQ _ (not_not.mp hs))
    · exact fun hc => hs hc.2
  simp [lfg_answer_put, h1, hPQ _ h1, h2, hq2]

/-- `lfg_get` is monotone in the permission set. -/
theorem get_mono (sub : String) (P Q : List String) (hPQ : ∀ s, s ∈ P → s ∈ Q)
    (store : Store) (limit? : Option Nat) (offset : Nat) (fs : Option AnnouncementState)
    (h : lfg_get { sub := sub, permissions := P } store limit? offset fs ≠ GetResult.err 403) :
    lfg_get { sub := sub, permissions := Q } store limit? offset fs
      = lfg_get { sub := sub, permissions := P } store limit? offset fs := by
  by_cases hlim : limit?.getD 50 > 500
  · simp [lfg_get, hlim]
  · have h1 : "read:lfg" ∈ P := by
      by_contra h1
      exact h (by simp [lfg_get, hlim, h1])
    simp [lfg_get, hlim, h1, hPQ _ h1]

/-- `webhooks_test` is monotone in the permission set. -/
theorem test_mono (postOk : Nat → Bool) (sub : String) (P Q : List String)
    (hPQ : ∀ s, s ∈ P → s ∈ Q) (store : Store) (wid : Nat)
    (h : (webhooks_test postOk { sub := sub, permissions := P } store wid).outcome
          ≠ Outcome.httpError 403) :
    webhooks_test postOk { sub := sub, permissions := Q } store wid
      = webhooks_test postOk { sub := sub, permissions := P } store wid := by
  have h1 : "test:webhooks" ∈ P := by
    by_contra h1
    exact h (by simp [webhooks_test, h1, errResult])
  simp [webhooks_test, h1, hPQ _ h1]

/-- C9's property at one input tuple: for each handler, a run not denied with
403 under permission set `P` produces the identical result under the superset
`Q` — enlarging the permission set never turns an allow into a deny. -/
def MonoAt (postOk : Nat → Bool) (sub : String) (P Q : List String) (store : Store)
    (aid : Nat) (user? : Option String) (data : AnnouncementEditable)
    (limit? : Option Nat) (offset : Nat) (fs : Option AnnouncementState) (wid : Nat) : Prop :=
  ((lfg_start postOk { sub := sub, permissions := P } store aid user?).outcome
      ≠ Outcome.httpError 403 →
    lfg_start postOk { sub := sub, permissions := Q } store aid user?
      = lfg_start postOk { sub := sub, permissions := P } store aid user?)
  ∧ ((lfg_cancel postOk { sub := sub, permissions := P } store aid user?).outcome
      ≠ Outcome.httpError 403 →
    lfg_cancel postOk { sub := sub, permissions := Q } store aid user?
      = lfg_cancel postOk { sub := sub, permissions := P } store aid user?)
  ∧ ((lfg_put { sub := sub, permissions := P } store aid data).outcome
      ≠ Outcome.httpError 403 →
    lfg_put { sub := sub, permissions := Q } store aid data
      = lfg_put { sub := sub, permissions := P } store aid data)
  ∧ ((lfg_post postOk { sub := sub, permissions := P } store user? data).outcome
      ≠ Outcome.httpError 403 →
    lfg_post postOk { sub := sub, permissions := Q } store user? data
      = lfg_post postOk { sub := sub, permissions := P } store user? data)
  ∧ ((lfg_delete { sub := sub, permissions := P } store aid).outcome
      ≠ Outcome.httpError 403 →
    lfg_delete { sub := sub, permissions := Q } store aid
      = lfg_delete { sub := sub, permissions := P } store aid)
  ∧ ((lfg_answer_put postOk { sub := sub, permissions := P } store aid user? data).outcome
      ≠ Outcome.httpError 403 →
    lfg_answer_put postOk { sub := sub, permissions := Q } store aid user? data
      = lfg_answer_put postOk { sub := sub, permissions := P } store aid user? data)
  ∧ (lfg_get { sub := sub, permissions := P } store limit? offset fs ≠ GetResult.err 403 →
    lfg_get { sub := sub, permissions := Q } store limit? offset fs
      = lfg_get { sub := sub, permissions := P } store limit? offset fs)
  ∧ ((webhooks_test postOk { sub := sub, permissions := P } store wid).outcome
      ≠ Outcome.httpError 403 →
    webhooks_test postOk { sub := sub, permissions := Q } store wid
      = webhooks_test postOk { sub := sub, permissions := P } store wid)

/-- C9: authorization is monotonic in the actor's permission set — for every
handler, actor, and input, a request allowed (not denied with 403) under a
permission set behaves identically under any superset of it. -/
theorem C9_theorem (postOk : Nat → Bool) (sub : String) (P Q : List String)
    (hPQ : ∀ s, s ∈ P → s ∈ Q) (store : Store) (aid : Nat) (user? : Option String)
    (data : AnnouncementEditable) (limit? : Option Nat) (offset : Nat)
    (fs : Option AnnouncementState) (wid : Nat) :
    MonoAt postOk sub P Q store aid user? data limit? offset fs wid :=
  ⟨fun h => start_mono postOk sub P Q hPQ store aid user? h,
   fun h => cancel_mono postOk sub P Q hPQ store aid user? h,
   fun h => put_mono sub P Q hPQ store aid data h,
   fun h => post_mono postOk sub P Q hPQ store user? data h,
   fun h => delete_mono sub P Q hPQ store aid h,
   fun h => answer_mono postOk sub P Q hPQ store aid user? data h,
   fun h => get_mono sub P Q hPQ store limit? offset fs h,
   fun h => test_mono postOk sub P Q hPQ store wid h⟩

/-- Witness for C9 at a concrete input: permission set `["edit:lfg"]` extended
to `["edit:lfg", "edit:lfg_sudo"]` over the store holding `alice`'s open
announcement. -/
theorem C9_witness :
    (∀ s, s ∈ (["edit:lfg"] : List String) → s ∈ (["edit:lfg", "edit:lfg_sudo"] : List String))
    ∧ MonoAt postAllOk "sam" ["edit:lfg"] ["edit:lfg", "edit:lfg_sudo"]
        storeC2 1 none editBody none 0 none 5 := by
  have hPQ : ∀ s, s ∈ (["edit:lfg"] : List String) →
      s ∈ (["edit:lfg", "edit:lfg_sudo"] : List String) := by
    intro s hs
    simp only [List.mem_singleton] at hs
    simp [hs]
  exact ⟨hPQ, C9_theorem postAllOk "sam" ["edit:lfg"] ["edit:lfg", "edit:lfg_sudo"]
    hPQ storeC2 1 none editBody none 0 none 5⟩

/-- C10: the webhook test handler evaluated at a failing input — wid 99 is not
registered, and the handler dereferences the absent row without a `None`
check, raising `AttributeError` (an HTTP 500) instead of returning 404; no
delivery is attempted. -/
theorem C10_theorem :
    (webhooks_test postAllOk cuTess storeC10 99).outcome = Outcome.pyError "AttributeError"
    ∧ (webhooks_test postAllOk cuTess storeC10 99).trace = [] := by decide

end Ryglfg
